import Mathlib

/-!
Verification development for the faceted filtering and aggregation engine of
the time/billing dashboard (source: `main.py`).  The record model, the
enrichment step (`load_and_process_data`), the filter evaluator
(`filter_data`), and the aggregation/metric tables are embedded as pure
Lean functions over rational numbers; pandas' special float values (NaN and
the infinities, as produced by division) are modelled explicitly by `PVal`.
-/

open scoped List

/-- pandas float value: either an ordinary (rational) number, NaN, or an
infinity.  Division is the only operation in the source that produces the
special values. -/
inductive PVal where
  | num : ℚ → PVal
  | nan : PVal
  | inf : PVal
  | ninf : PVal
deriving DecidableEq

/-- pandas division of two ordinary numbers: `0 / 0 = NaN`, `x / 0 = ±inf`
for `x ≠ 0`, ordinary division otherwise. -/
def pdivQ (x y : ℚ) : PVal :=
  if y = 0 then (if x = 0 then PVal.nan else if 0 < x then PVal.inf else PVal.ninf)
  else PVal.num (x / y)

/-- multiplication of a pandas value by the positive constant 100
(as in `... * 100`); NaN and infinities are preserved. -/
def pmul100 : PVal → PVal
  | PVal.num q => PVal.num (q * 100)
  | PVal.nan => PVal.nan
  | PVal.inf => PVal.inf
  | PVal.ninf => PVal.ninf

/-- `fillna(0)`: replaces NaN by 0 and leaves every other value (including
infinities) unchanged. -/
def pfillna0 : PVal → PVal
  | PVal.nan => PVal.num 0
  | v => v

/-- rounding to two decimal places, as in `.round(2)`. -/
def round2 (q : ℚ) : ℚ := (round (q * 100) : ℤ) / 100

/-- `.round(2)` on a pandas value: NaN and infinities are preserved. -/
def pround2 : PVal → PVal
  | PVal.num q => PVal.num (round2 q)
  | v => v

/-- a calendar date (the `.dt.date` part of an activity timestamp). -/
structure ADate where
  year : Int
  month : Int
  day : Int
deriving DecidableEq

/-- date comparison, lexicographic on (year, month, day). -/
def ADate.ble (a b : ADate) : Bool :=
  decide (a.year < b.year) ||
    (decide (a.year = b.year) &&
      (decide (a.month < b.month) ||
        (decide (a.month = b.month) && decide (a.day ≤ b.day))))

/-- an enriched activity record: the raw CSV columns together with the
derived columns added by `load_and_process_data`. -/
structure Record where
  activity_date : ADate
  year : Int
  month : Int
  month_name : String
  quarter : Int
  attorney : String
  originating_attorney : Option String
  practice_area : String
  matter_location : String
  matter_status : Option String
  matter_stage : Option String
  billable_matter : Option String
  matter_description : String
  billable_hours : ℚ
  non_billable_hours : ℚ
  billed_hours : ℚ
  unbilled_hours : ℚ
  tracked_hours : ℚ
  billable_hours_amount : ℚ
  billed_hours_amount : ℚ
  total_hours : ℚ
  utilization_rate : PVal
deriving DecidableEq

/-- a raw CSV row before enrichment.  `Option String` fields are `none` when
the CSV cell is missing (pandas NaN). -/
structure RawRecord where
  activity_date : ADate
  attorney : String
  originating_attorney : Option String
  practice_area : Option String
  matter_location : Option String
  matter_status : Option String
  matter_stage : Option String
  billable_matter : Option String
  matter_description : Option String
  billable_hours : ℚ
  non_billable_hours : ℚ
  billed_hours : ℚ
  unbilled_hours : ℚ
  tracked_hours : ℚ
  billable_hours_amount : ℚ
  billed_hours_amount : ℚ
deriving DecidableEq

/-- `strftime('%B')`: English month name of a month number. -/
def monthName (m : Int) : String :=
  if m = 1 then "January" else if m = 2 then "February" else if m = 3 then "March"
  else if m = 4 then "April" else if m = 5 then "May" else if m = 6 then "June"
  else if m = 7 then "July" else if m = 8 then "August" else if m = 9 then "September"
  else if m = 10 then "October" else if m = 11 then "November" else if m = 12 then "December"
  else ""

/-- `fillna` on a string column: a missing (NaN) cell is replaced by the
default, a present string (even the empty string) is kept. -/
def fillnaStr (v : Option String) (default : String) : String :=
  match v with
  | none => default
  | some s => s

/-- row-wise embedding of `load_and_process_data`: derived date columns,
string defaults via `fillna`, total hours, and the utilization rate
`(billable / total * 100).fillna(0)` computed with pandas division. -/
def load_and_process_row (r : RawRecord) : Record :=
  { activity_date := r.activity_date
    year := r.activity_date.year
    month := r.activity_date.month
    month_name := monthName r.activity_date.month
    quarter := (r.activity_date.month + 2) / 3
    attorney := r.attorney
    originating_attorney := r.originating_attorney
    practice_area := fillnaStr r.practice_area "Unspecified"
    matter_location := fillnaStr r.matter_location "Unspecified"
    matter_status := r.matter_status
    matter_stage := r.matter_stage
    billable_matter := r.billable_matter
    matter_description := fillnaStr r.matter_description ""
    billable_hours := r.billable_hours
    non_billable_hours := r.non_billable_hours
    billed_hours := r.billed_hours
    unbilled_hours := r.unbilled_hours
    tracked_hours := r.tracked_hours
    billable_hours_amount := r.billable_hours_amount
    billed_hours_amount := r.billed_hours_amount
    total_hours := r.billable_hours + r.non_billable_hours
    utilization_rate :=
      pfillna0 (pmul100 (pdivQ r.billable_hours (r.billable_hours + r.non_billable_hours))) }

/-- the filter dictionary returned by `create_sidebar_filters`.  Facet
values that Python treats as falsy (0, `None`, empty list) denote an
inactive constraint; `date_range` and `rate_range` are active only when
they hold exactly two entries. -/
structure Filters where
  year : Int
  quarter : Option Int
  months : List String
  date_range : List ADate
  attorneys : List String
  originating_attorneys : List String
  min_hours : ℚ
  practice_areas : List String
  locations : List String
  matter_status : List String
  matter_stage : List String
  billable_matter : List String
  min_amount : ℚ
  rate_range : List ℚ
  clients : List String
  min_client_hours : ℚ
deriving DecidableEq

/-- one conditional filtering block `if cond: fd = fd[pred]` of
`filter_data`. -/
def applyIf (c : Prop) [Decidable c] (p : Record → Bool) (l : List Record) : List Record :=
  if c then l.filter p else l

/-- `.isin` on a column that may hold missing values: a NaN cell is never a
member. -/
def optMem (v : Option String) (xs : List String) : Bool :=
  match v with
  | none => false
  | some s => decide (s ∈ xs)

/-- sum of a numeric column over the rows of a group, as produced by
`groupby(key)[val].sum()` for one group key. -/
def sumBy {κ : Type} [DecidableEq κ] (key : Record → κ) (val : Record → ℚ)
    (l : List Record) (k : κ) : ℚ :=
  ((l.filter (fun r => decide (key r = k))).map val).sum

/-- an aggregate-threshold block of `filter_data`: when the threshold is
positive, group the current rows by `key`, sum billable hours per group,
and keep the rows whose group sum meets the threshold. -/
def threshFilter (θ : ℚ) (key : Record → String) (l : List Record) : List Record :=
  if 0 < θ then
    l.filter (fun r => decide (θ ≤ sumBy key (fun x => x.billable_hours) l (key r)))
  else l

/-- `if filters['year']: fd = fd[fd['year'] == filters['year']]` -/
def yearStage (f : Filters) (l : List Record) : List Record :=
  applyIf (f.year ≠ 0) (fun r => decide (r.year = f.year)) l

/-- `if filters['quarter']: fd = fd[fd['quarter'] == filters['quarter']]`
(the stored quarter is `None` when "All" is selected). -/
def quarterStage (f : Filters) (l : List Record) : List Record :=
  match f.quarter with
  | none => l
  | some q => if q ≠ 0 then l.filter (fun r => decide (r.quarter = q)) else l

/-- months multi-select block. -/
def monthsStage (f : Filters) (l : List Record) : List Record :=
  applyIf (f.months ≠ []) (fun r => decide (r.month_name ∈ f.months)) l

/-- custom date range block: active only when the range holds exactly two
dates, inclusive on both ends. -/
def dateRangeStage (f : Filters) (l : List Record) : List Record :=
  match f.date_range with
  | [a, b] => l.filter (fun r => ADate.ble a r.activity_date && ADate.ble r.activity_date b)
  | _ => l

/-- attorneys multi-select block. -/
def attorneysStage (f : Filters) (l : List Record) : List Record :=
  applyIf (f.attorneys ≠ []) (fun r => decide (r.attorney ∈ f.attorneys)) l

/-- originating attorneys multi-select block (`isin` on a nullable column). -/
def origStage (f : Filters) (l : List Record) : List Record :=
  applyIf (f.originating_attorneys ≠ [])
    (fun r => optMem r.originating_attorney f.originating_attorneys) l

/-- minimum attorney billable hours block: grouping over the rows already
filtered by the preceding blocks. -/
def minHoursStage (f : Filters) (l : List Record) : List Record :=
  threshFilter f.min_hours (fun r => r.attorney) l

/-- practice areas multi-select block. -/
def practiceStage (f : Filters) (l : List Record) : List Record :=
  applyIf (f.practice_areas ≠ []) (fun r => decide (r.practice_area ∈ f.practice_areas)) l

/-- locations multi-select block. -/
def locationsStage (f : Filters) (l : List Record) : List Record :=
  applyIf (f.locations ≠ []) (fun r => decide (r.matter_location ∈ f.locations)) l

/-- matter status multi-select block. -/
def matterStatusStage (f : Filters) (l : List Record) : List Record :=
  applyIf (f.matter_status ≠ []) (fun r => optMem r.matter_status f.matter_status) l

/-- matter stage multi-select block. -/
def matterStageStage (f : Filters) (l : List Record) : List Record :=
  applyIf (f.matter_stage ≠ []) (fun r => optMem r.matter_stage f.matter_stage) l

/-- billable matter multi-select block. -/
def billableMatterStage (f : Filters) (l : List Record) : List Record :=
  applyIf (f.billable_matter ≠ []) (fun r => optMem r.billable_matter f.billable_matter) l

/-- minimum billable amount block. -/
def minAmountStage (f : Filters) (l : List Record) : List Record :=
  applyIf (0 < f.min_amount) (fun r => decide (f.min_amount ≤ r.billable_hours_amount)) l

/-- hourly rate range block: active only when the range holds exactly two
values, inclusive on both ends. -/
def rateRangeStage (f : Filters) (l : List Record) : List Record :=
  match f.rate_range with
  | [lo, hi] =>
      l.filter (fun r =>
        decide (lo ≤ r.billable_hours_amount) && decide (r.billable_hours_amount ≤ hi))
  | _ => l

/-- clients multi-select block (on `Matter description`). -/
def clientsStage (f : Filters) (l : List Record) : List Record :=
  applyIf (f.clients ≠ []) (fun r => decide (r.matter_description ∈ f.clients)) l

/-- minimum client billable hours block, the last block of `filter_data`. -/
def minClientStage (f : Filters) (l : List Record) : List Record :=
  threshFilter f.min_client_hours (fun r => r.matter_description) l

/-- `filter_data`: the sixteen filtering blocks applied in source order:
year, quarter, months, date range, attorneys, originating attorneys,
minimum attorney hours, practice areas, locations, matter status, matter
stage, billable matter, minimum amount, rate range, clients, minimum
client hours. -/
def filter_data (f : Filters) (df : List Record) : List Record :=
  minClientStage f (clientsStage f (rateRangeStage f (minAmountStage f
    (billableMatterStage f (matterStageStage f (matterStatusStage f
      (locationsStage f (practiceStage f (minHoursStage f (origStage f
        (attorneysStage f (dateRangeStage f (monthsStage f
          (quarterStage f (yearStage f df)))))))))))))))

/-- an `applyIf` block with a false condition is the identity. -/
theorem applyIf_neg {c : Prop} [Decidable c] (h : ¬ c) (p : Record → Bool) (l : List Record) :
    applyIf c p l = l := by
  simp [applyIf, h]

/-- every `applyIf` block returns a sublist of its input. -/
theorem applyIf_sublist (c : Prop) [Decidable c] (p : Record → Bool) (l : List Record) :
    applyIf c p l <+ l := by
  by_cases h : c
  · simp only [applyIf, if_pos h]
    exact List.filter_sublist l
  · simp [applyIf, h]

/-- `applyIf` blocks are monotone with respect to the sublist order. -/
theorem applyIf_mono {c : Prop} [Decidable c] {p : Record → Bool} {m l : List Record}
    (h : m <+ l) : applyIf c p m <+ applyIf c p l := by
  by_cases hc : c
  · simpa [applyIf, hc] using h.filter p
  · simpa [applyIf, hc] using h

/-- membership in the output of an `applyIf` block: the row is an input row
and, when the block is active, satisfies its predicate. -/
theorem applyIf_mem {c : Prop} [Decidable c] {p : Record → Bool} {l : List Record} {r : Record}
    (h : r ∈ applyIf c p l) : r ∈ l ∧ (c → p r = true) := by
  by_cases hc : c
  · simp only [applyIf, if_pos hc] at h
    exact ⟨List.mem_of_mem_filter h, fun _ => List.of_mem_filter h⟩
  · simp only [applyIf, if_neg hc] at h
    exact ⟨h, fun hc2 => absurd hc2 hc⟩

/-- an `applyIf` block leaves a list unchanged when all its rows satisfy the
predicate. -/
theorem applyIf_eq_self {c : Prop} [Decidable c] {p : Record → Bool} {l : List Record}
    (h : ∀ r ∈ l, c → p r = true) : applyIf c p l = l := by
  by_cases hc : c
  · simp only [applyIf, if_pos hc]
    exact List.filter_eq_self.mpr (fun r hr => h r hr hc)
  · simp [applyIf, hc]

/-- a threshold block with a non-positive threshold is the identity. -/
theorem threshFilter_not_pos {θ : ℚ} (h : ¬ 0 < θ) (key : Record → String) (l : List Record) :
    threshFilter θ key l = l := by
  simp [threshFilter, h]

/-- every threshold block returns a sublist of its input. -/
theorem threshFilter_sublist (θ : ℚ) (key : Record → String) (l : List Record) :
    threshFilter θ key l <+ l := by
  by_cases h : 0 < θ
  · simp only [threshFilter, if_pos h]
    exact List.filter_sublist l
  · simp [threshFilter, h]

/-- a group sum of billable hours can only shrink when rows are removed,
provided all billable hours are nonnegative. -/
theorem sumBy_mono_of_sublist {key : Record → String} {m l : List Record}
    (hn : ∀ r ∈ l, 0 ≤ r.billable_hours) (h : m <+ l) (k : String) :
    sumBy key (fun x => x.billable_hours) m k ≤ sumBy key (fun x => x.billable_hours) l k := by
  apply List.Sublist.sum_le_sum ((h.filter _).map _)
  intro q hq
  obtain ⟨r, hr, rfl⟩ := List.mem_map.mp hq
  exact hn r (List.mem_of_mem_filter hr)

/-- threshold blocks are monotone with respect to the sublist order when all
billable hours are nonnegative. -/
theorem threshFilter_mono {θ : ℚ} {key : Record → String} {m l : List Record}
    (hn : ∀ r ∈ l, 0 ≤ r.billable_hours) (h : m <+ l) :
    threshFilter θ key m <+ threshFilter θ key l := by
  by_cases hp : 0 < θ
  · simp only [threshFilter, if_pos hp]
    have h1 : m.filter (fun r => decide (θ ≤ sumBy key (fun x => x.billable_hours) m (key r))) <+
        m.filter (fun r => decide (θ ≤ sumBy key (fun x => x.billable_hours) l (key r))) := by
      apply List.monotone_filter_right
      intro r hr
      have hle := @sumBy_mono_of_sublist key m l hn h (key r)
      simp only [decide_eq_true_eq] at hr ⊢
      exact le_trans hr hle
    exact h1.trans (h.filter _)
  · simpa [threshFilter, hp] using h

/-- all billable hours in a record collection are nonnegative (the data
model's schema invariant for hours columns). -/
def nonnegOn (l : List Record) : Prop := ∀ r ∈ l, 0 ≤ r.billable_hours

/-- the nonnegativity invariant restricts to sublists. -/
theorem nonnegOn_of_sublist {m l : List Record} (h : m <+ l) (hn : nonnegOn l) : nonnegOn m :=
  fun r hr => hn r (h.subset hr)

/-- the year block returns a sublist. -/
theorem yearStage_sublist (f : Filters) (l : List Record) : yearStage f l <+ l :=
  applyIf_sublist _ _ _

/-- the year block is monotone. -/
theorem yearStage_mono (f : Filters) {m l : List Record} (h : m <+ l) :
    yearStage f m <+ yearStage f l := applyIf_mono h

/-- the quarter block returns a sublist. -/
theorem quarterStage_sublist (f : Filters) (l : List Record) : quarterStage f l <+ l := by
  unfold quarterStage
  split
  · exact List.Sublist.refl l
  · split
    · exact List.filter_sublist l
    · exact List.Sublist.refl l

/-- the quarter block is monotone. -/
theorem quarterStage_mono (f : Filters) {m l : List Record} (h : m <+ l) :
    quarterStage f m <+ quarterStage f l := by
  unfold quarterStage
  split
  · exact h
  · split
    · exact h.filter _
    · exact h

/-- the months block returns a sublist. -/
theorem monthsStage_sublist (f : Filters) (l : List Record) : monthsStage f l <+ l :=
  applyIf_sublist _ _ _

/-- the months block is monotone. -/
theorem monthsStage_mono (f : Filters) {m l : List Record} (h : m <+ l) :
    monthsStage f m <+ monthsStage f l := applyIf_mono h

/-- the date range block returns a sublist. -/
theorem dateRangeStage_sublist (f : Filters) (l : List Record) : dateRangeStage f l <+ l := by
  unfold dateRangeStage
  split
  · exact List.filter_sublist l
  · exact List.Sublist.refl l

/-- the date range block is monotone. -/
theorem dateRangeStage_mono (f : Filters) {m l : List Record} (h : m <+ l) :
    dateRangeStage f m <+ dateRangeStage f l := by
  unfold dateRangeStage
  split
  · exact h.filter _
  · exact h

/-- the attorneys block returns a sublist. -/
theorem attorneysStage_sublist (f : Filters) (l : List Record) : attorneysStage f l <+ l :=
  applyIf_sublist _ _ _

/-- the attorneys block is monotone. -/
theorem attorneysStage_mono (f : Filters) {m l : List Record} (h : m <+ l) :
    attorneysStage f m <+ attorneysStage f l := applyIf_mono h

/-- the originating attorneys block returns a sublist. -/
theorem origStage_sublist (f : Filters) (l : List Record) : origStage f l <+ l :=
  applyIf_sublist _ _ _

/-- the originating attorneys block is monotone. -/
theorem origStage_mono (f : Filters) {m l : List Record} (h : m <+ l) :
    origStage f m <+ origStage f l := applyIf_mono h

/-- the attorney threshold block returns a sublist. -/
theorem minHoursStage_sublist (f : Filters) (l : List Record) : minHoursStage f l <+ l :=
  threshFilter_sublist _ _ _

/-- the attorney threshold block is monotone on nonnegative data. -/
theorem minHoursStage_mono (f : Filters) {m l : List Record} (hn : nonnegOn l) (h : m <+ l) :
    minHoursStage f m <+ minHoursStage f l := threshFilter_mono hn h

/-- the practice areas block returns a sublist. -/
theorem practiceStage_sublist (f : Filters) (l : List Record) : practiceStage f l <+ l :=
  applyIf_sublist _ _ _

/-- the practice areas block is monotone. -/
theorem practiceStage_mono (f : Filters) {m l : List Record} (h : m <+ l) :
    practiceStage f m <+ practiceStage f l := applyIf_mono h

/-- the locations block returns a sublist. -/
theorem locationsStage_sublist (f : Filters) (l : List Record) : locationsStage f l <+ l :=
  applyIf_sublist _ _ _

/-- the locations block is monotone. -/
theorem locationsStage_mono (f : Filters) {m l : List Record} (h : m <+ l) :
    locationsStage f m <+ locationsStage f l := applyIf_mono h

/-- the matter status block returns a sublist. -/
theorem matterStatusStage_sublist (f : Filters) (l : List Record) : matterStatusStage f l <+ l :=
  applyIf_sublist _ _ _

/-- the matter status block is monotone. -/
theorem matterStatusStage_mono (f : Filters) {m l : List Record} (h : m <+ l) :
    matterStatusStage f m <+ matterStatusStage f l := applyIf_mono h

/-- the matter stage block returns a sublist. -/
theorem matterStageStage_sublist (f : Filters) (l : List Record) : matterStageStage f l <+ l :=
  applyIf_sublist _ _ _

/-- the matter stage block is monotone. -/
theorem matterStageStage_mono (f : Filters) {m l : List Record} (h : m <+ l) :
    matterStageStage f m <+ matterStageStage f l := applyIf_mono h

/-- the billable matter block returns a sublist. -/
theorem billableMatterStage_sublist (f : Filters) (l : List Record) :
    billableMatterStage f l <+ l := applyIf_sublist _ _ _

/-- the billable matter block is monotone. -/
theorem billableMatterStage_mono (f : Filters) {m l : List Record} (h : m <+ l) :
    billableMatterStage f m <+ billableMatterStage f l := applyIf_mono h

/-- the minimum amount block returns a sublist. -/
theorem minAmountStage_sublist (f : Filters) (l : List Record) : minAmountStage f l <+ l :=
  applyIf_sublist _ _ _

/-- the minimum amount block is monotone. -/
theorem minAmountStage_mono (f : Filters) {m l : List Record} (h : m <+ l) :
    minAmountStage f m <+ minAmountStage f l := applyIf_mono h

/-- the rate range block returns a sublist. -/
theorem rateRangeStage_sublist (f : Filters) (l : List Record) : rateRangeStage f l <+ l := by
  unfold rateRangeStage
  split
  · exact List.filter_sublist l
  · exact List.Sublist.refl l

/-- the rate range block is monotone. -/
theorem rateRangeStage_mono (f : Filters) {m l : List Record} (h : m <+ l) :
    rateRangeStage f m <+ rateRangeStage f l := by
  unfold rateRangeStage
  split
  · exact h.filter _
  · exact h

/-- the clients block returns a sublist. -/
theorem clientsStage_sublist (f : Filters) (l : List Record) : clientsStage f l <+ l :=
  applyIf_sublist _ _ _

/-- the clients block is monotone. -/
theorem clientsStage_mono (f : Filters) {m l : List Record} (h : m <+ l) :
    clientsStage f m <+ clientsStage f l := applyIf_mono h

/-- the client threshold block returns a sublist. -/
theorem minClientStage_sublist (f : Filters) (l : List Record) : minClientStage f l <+ l :=
  threshFilter_sublist _ _ _

/-- the client threshold block is monotone on nonnegative data. -/
theorem minClientStage_mono (f : Filters) {m l : List Record} (hn : nonnegOn l) (h : m <+ l) :
    minClientStage f m <+ minClientStage f l := threshFilter_mono hn h

/-- suffix of the `filter_data` pipeline starting at block 16. -/
def tail16 (f : Filters) (l : List Record) : List Record := minClientStage f l

/-- suffix of the pipeline starting at block 15 (clients). -/
def tail15 (f : Filters) (l : List Record) : List Record := tail16 f (clientsStage f l)

/-- suffix of the pipeline starting at block 14 (rate range). -/
def tail14 (f : Filters) (l : List Record) : List Record := tail15 f (rateRangeStage f l)

/-- suffix of the pipeline starting at block 13 (minimum amount). -/
def tail13 (f : Filters) (l : List Record) : List Record := tail14 f (minAmountStage f l)

/-- suffix of the pipeline starting at block 12 (billable matter). -/
def tail12 (f : Filters) (l : List Record) : List Record := tail13 f (billableMatterStage f l)

/-- suffix of the pipeline starting at block 11 (matter stage). -/
def tail11 (f : Filters) (l : List Record) : List Record := tail12 f (matterStageStage f l)

/-- suffix of the pipeline starting at block 10 (matter status). -/
def tail10 (f : Filters) (l : List Record) : List Record := tail11 f (matterStatusStage f l)

/-- suffix of the pipeline starting at block 9 (locations). -/
def tail9 (f : Filters) (l : List Record) : List Record := tail10 f (locationsStage f l)

/-- suffix of the pipeline starting at block 8 (practice areas). -/
def tail8 (f : Filters) (l : List Record) : List Record := tail9 f (practiceStage f l)

/-- suffix of the pipeline starting at block 7 (attorney threshold). -/
def tail7 (f : Filters) (l : List Record) : List Record := tail8 f (minHoursStage f l)

/-- suffix of the pipeline starting at block 6 (originating attorneys). -/
def tail6 (f : Filters) (l : List Record) : List Record := tail7 f (origStage f l)

/-- suffix of the pipeline starting at block 5 (attorneys). -/
def tail5 (f : Filters) (l : List Record) : List Record := tail6 f (attorneysStage f l)

/-- suffix of the pipeline starting at block 4 (date range). -/
def tail4 (f : Filters) (l : List Record) : List Record := tail5 f (dateRangeStage f l)

/-- suffix of the pipeline starting at block 3 (months). -/
def tail3 (f : Filters) (l : List Record) : List Record := tail4 f (monthsStage f l)

/-- suffix of the pipeline starting at block 2 (quarter). -/
def tail2 (f : Filters) (l : List Record) : List Record := tail3 f (quarterStage f l)

/-- block-16 suffix returns a sublist. -/
theorem tail16_sublist (f : Filters) (l : List Record) : tail16 f l <+ l :=
  minClientStage_sublist f l

/-- block-16 suffix is monotone on nonnegative data. -/
theorem tail16_mono (f : Filters) {m l : List Record} (hn : nonnegOn l) (h : m <+ l) :
    tail16 f m <+ tail16 f l := minClientStage_mono f hn h

/-- block-15 suffix returns a sublist. -/
theorem tail15_sublist (f : Filters) (l : List Record) : tail15 f l <+ l :=
  (tail16_sublist f _).trans (clientsStage_sublist f l)

/-- block-15 suffix is monotone on nonnegative data. -/
theorem tail15_mono (f : Filters) {m l : List Record} (hn : nonnegOn l) (h : m <+ l) :
    tail15 f m <+ tail15 f l :=
  tail16_mono f (nonnegOn_of_sublist (clientsStage_sublist f l) hn) (clientsStage_mono f h)

/-- block-14 suffix returns a sublist. -/
theorem tail14_sublist (f : Filters) (l : List Record) : tail14 f l <+ l :=
  (tail15_sublist f _).trans (rateRangeStage_sublist f l)

/-- block-14 suffix is monotone on nonnegative data. -/
theorem tail14_mono (f : Filters) {m l : List Record} (hn : nonnegOn l) (h : m <+ l) :
    tail14 f m <+ tail14 f l :=
  tail15_mono f (nonnegOn_of_sublist (rateRangeStage_sublist f l) hn) (rateRangeStage_mono f h)

/-- block-13 suffix returns a sublist. -/
theorem tail13_sublist (f : Filters) (l : List Record) : tail13 f l <+ l :=
  (tail14_sublist f _).trans (minAmountStage_sublist f l)

/-- block-13 suffix is monotone on nonnegative data. -/
theorem tail13_mono (f : Filters) {m l : List Record} (hn : nonnegOn l) (h : m <+ l) :
    tail13 f m <+ tail13 f l :=
  tail14_mono f (nonnegOn_of_sublist (minAmountStage_sublist f l) hn) (minAmountStage_mono f h)

/-- block-12 suffix returns a sublist. -/
theorem tail12_sublist (f : Filters) (l : List Record) : tail12 f l <+ l :=
  (tail13_sublist f _).trans (billableMatterStage_sublist f l)

/-- block-12 suffix is monotone on nonnegative data. -/
theorem tail12_mono (f : Filters) {m l : List Record} (hn : nonnegOn l) (h : m <+ l) :
    tail12 f m <+ tail12 f l :=
  tail13_mono f (nonnegOn_of_sublist (billableMatterStage_sublist f l) hn)
    (billableMatterStage_mono f h)

/-- block-11 suffix returns a sublist. -/
theorem tail11_sublist (f : Filters) (l : List Record) : tail11 f l <+ l :=
  (tail12_sublist f _).trans (matterStageStage_sublist f l)

/-- block-11 suffix is monotone on nonnegative data. -/
theorem tail11_mono (f : Filters) {m l : List Record} (hn : nonnegOn l) (h : m <+ l) :
    tail11 f m <+ tail11 f l :=
  tail12_mono f (nonnegOn_of_sublist (matterStageStage_sublist f l) hn) (matterStageStage_mono f h)

/-- block-10 suffix returns a sublist. -/
theorem tail10_sublist (f : Filters) (l : List Record) : tail10 f l <+ l :=
  (tail11_sublist f _).trans (matterStatusStage_sublist f l)

/-- block-10 suffix is monotone on nonnegative data. -/
theorem tail10_mono (f : Filters) {m l : List Record} (hn : nonnegOn l) (h : m <+ l) :
    tail10 f m <+ tail10 f l :=
  tail11_mono f (nonnegOn_of_sublist (matterStatusStage_sublist f l) hn)
    (matterStatusStage_mono f h)

/-- block-9 suffix returns a sublist. -/
theorem tail9_sublist (f : Filters) (l : List Record) : tail9 f l <+ l :=
  (tail10_sublist f _).trans (locationsStage_sublist f l)

/-- block-9 suffix is monotone on nonnegative data. -/
theorem tail9_mono (f : Filters) {m l : List Record} (hn : nonnegOn l) (h : m <+ l) :
    tail9 f m <+ tail9 f l :=
  tail10_mono f (nonnegOn_of_sublist (locationsStage_sublist f l) hn) (locationsStage_mono f h)

/-- block-8 suffix returns a sublist. -/
theorem tail8_sublist (f : Filters) (l : List Record) : tail8 f l <+ l :=
  (tail9_sublist f _).trans (practiceStage_sublist f l)

/-- block-8 suffix is monotone on nonnegative data. -/
theorem tail8_mono (f : Filters) {m l : List Record} (hn : nonnegOn l) (h : m <+ l) :
    tail8 f m <+ tail8 f l :=
  tail9_mono f (nonnegOn_of_sublist (practiceStage_sublist f l) hn) (practiceStage_mono f h)

/-- block-7 suffix returns a sublist. -/
theorem tail7_sublist (f : Filters) (l : List Record) : tail7 f l <+ l :=
  (tail8_sublist f _).trans (minHoursStage_sublist f l)

/-- block-7 suffix is monotone on nonnegative data. -/
theorem tail7_mono (f : Filters) {m l : List Record} (hn : nonnegOn l) (h : m <+ l) :
    tail7 f m <+ tail7 f l :=
  tail8_mono f (nonnegOn_of_sublist (minHoursStage_sublist f l) hn) (minHoursStage_mono f hn h)

/-- block-6 suffix returns a sublist. -/
theorem tail6_sublist (f : Filters) (l : List Record) : tail6 f l <+ l :=
  (tail7_sublist f _).trans (origStage_sublist f l)

/-- block-6 suffix is monotone on nonnegative data. -/
theorem tail6_mono (f : Filters) {m l : List Record} (hn : nonnegOn l) (h : m <+ l) :
    tail6 f m <+ tail6 f l :=
  tail7_mono f (nonnegOn_of_sublist (origStage_sublist f l) hn) (origStage_mono f h)

/-- block-5 suffix returns a sublist. -/
theorem tail5_sublist (f : Filters) (l : List Record) : tail5 f l <+ l :=
  (tail6_sublist f _).trans (attorneysStage_sublist f l)

/-- block-5 suffix is monotone on nonnegative data. -/
theorem tail5_mono (f : Filters) {m l : List Record} (hn : nonnegOn l) (h : m <+ l) :
    tail5 f m <+ tail5 f l :=
  tail6_mono f (nonnegOn_of_sublist (attorneysStage_sublist f l) hn) (attorneysStage_mono f h)

/-- block-4 suffix returns a sublist. -/
theorem tail4_sublist (f : Filters) (l : List Record) : tail4 f l <+ l :=
  (tail5_sublist f _).trans (dateRangeStage_sublist f l)

/-- block-4 suffix is monotone on nonnegative data. -/
theorem tail4_mono (f : Filters) {m l : List Record} (hn : nonnegOn l) (h : m <+ l) :
    tail4 f m <+ tail4 f l :=
  tail5_mono f (nonnegOn_of_sublist (dateRangeStage_sublist f l) hn) (dateRangeStage_mono f h)

/-- block-3 suffix returns a sublist. -/
theorem tail3_sublist (f : Filters) (l : List Record) : tail3 f l <+ l :=
  (tail4_sublist f _).trans (monthsStage_sublist f l)

/-- block-3 suffix is monotone on nonnegative data. -/
theorem tail3_mono (f : Filters) {m l : List Record} (hn : nonnegOn l) (h : m <+ l) :
    tail3 f m <+ tail3 f l :=
  tail4_mono f (nonnegOn_of_sublist (monthsStage_sublist f l) hn) (monthsStage_mono f h)

/-- block-2 suffix returns a sublist. -/
theorem tail2_sublist (f : Filters) (l : List Record) : tail2 f l <+ l :=
  (tail3_sublist f _).trans (quarterStage_sublist f l)

/-- block-2 suffix is monotone on nonnegative data. -/
theorem tail2_mono (f : Filters) {m l : List Record} (hn : nonnegOn l) (h : m <+ l) :
    tail2 f m <+ tail2 f l :=
  tail3_mono f (nonnegOn_of_sublist (quarterStage_sublist f l) hn) (quarterStage_mono f h)

/-- `filter_data` always returns a sublist of its input. -/
theorem filter_data_sublist (f : Filters) (df : List Record) : filter_data f df <+ df :=
  (tail2_sublist f (yearStage f df)).trans (yearStage_sublist f df)

/-- prefix of the pipeline through block 1 (year). -/
def upTo1 (f : Filters) (df : List Record) : List Record := yearStage f df

/-- prefix of the pipeline through block 2 (quarter). -/
def upTo2 (f : Filters) (df : List Record) : List Record := quarterStage f (upTo1 f df)

/-- prefix of the pipeline through block 3 (months). -/
def upTo3 (f : Filters) (df : List Record) : List Record := monthsStage f (upTo2 f df)

/-- prefix of the pipeline through block 4 (date range). -/
def upTo4 (f : Filters) (df : List Record) : List Record := dateRangeStage f (upTo3 f df)

/-- prefix of the pipeline through block 5 (attorneys). -/
def upTo5 (f : Filters) (df : List Record) : List Record := attorneysStage f (upTo4 f df)

/-- prefix of the pipeline through block 6 (originating attorneys). -/
def upTo6 (f : Filters) (df : List Record) : List Record := origStage f (upTo5 f df)

/-- prefix of the pipeline through block 7 (attorney threshold). -/
def upTo7 (f : Filters) (df : List Record) : List Record := minHoursStage f (upTo6 f df)

/-- prefix of the pipeline through block 8 (practice areas). -/
def upTo8 (f : Filters) (df : List Record) : List Record := practiceStage f (upTo7 f df)

/-- prefix of the pipeline through block 9 (locations). -/
def upTo9 (f : Filters) (df : List Record) : List Record := locationsStage f (upTo8 f df)

/-- prefix of the pipeline through block 10 (matter status). -/
def upTo10 (f : Filters) (df : List Record) : List Record := matterStatusStage f (upTo9 f df)

/-- prefix of the pipeline through block 11 (matter stage). -/
def upTo11 (f : Filters) (df : List Record) : List Record := matterStageStage f (upTo10 f df)

/-- prefix of the pipeline through block 12 (billable matter). -/
def upTo12 (f : Filters) (df : List Record) : List Record := billableMatterStage f (upTo11 f df)

/-- prefix of the pipeline through block 13 (minimum amount). -/
def upTo13 (f : Filters) (df : List Record) : List Record := minAmountStage f (upTo12 f df)

/-- prefix of the pipeline through block 14 (rate range). -/
def upTo14 (f : Filters) (df : List Record) : List Record := rateRangeStage f (upTo13 f df)

/-- prefix of the pipeline through block 15 (clients). -/
def upTo15 (f : Filters) (df : List Record) : List Record := clientsStage f (upTo14 f df)

/-- block-1 prefix returns a sublist. -/
theorem upTo1_sublist (f : Filters) (df : List Record) : upTo1 f df <+ df :=
  yearStage_sublist f df

/-- block-2 prefix returns a sublist. -/
theorem upTo2_sublist (f : Filters) (df : List Record) : upTo2 f df <+ df :=
  (quarterStage_sublist f _).trans (upTo1_sublist f df)

/-- block-3 prefix returns a sublist. -/
theorem upTo3_sublist (f : Filters) (df : List Record) : upTo3 f df <+ df :=
  (monthsStage_sublist f _).trans (upTo2_sublist f df)

/-- block-4 prefix returns a sublist. -/
theorem upTo4_sublist (f : Filters) (df : List Record) : upTo4 f df <+ df :=
  (dateRangeStage_sublist f _).trans (upTo3_sublist f df)

/-- block-5 prefix returns a sublist. -/
theorem upTo5_sublist (f : Filters) (df : List Record) : upTo5 f df <+ df :=
  (attorneysStage_sublist f _).trans (upTo4_sublist f df)

/-- block-6 prefix returns a sublist. -/
theorem upTo6_sublist (f : Filters) (df : List Record) : upTo6 f df <+ df :=
  (origStage_sublist f _).trans (upTo5_sublist f df)

/-- block-7 prefix returns a sublist. -/
theorem upTo7_sublist (f : Filters) (df : List Record) : upTo7 f df <+ df :=
  (minHoursStage_sublist f _).trans (upTo6_sublist f df)

/-- block-8 prefix returns a sublist. -/
theorem upTo8_sublist (f : Filters) (df : List Record) : upTo8 f df <+ df :=
  (practiceStage_sublist f _).trans (upTo7_sublist f df)

/-- block-9 prefix returns a sublist. -/
theorem upTo9_sublist (f : Filters) (df : List Record) : upTo9 f df <+ df :=
  (locationsStage_sublist f _).trans (upTo8_sublist f df)

/-- block-10 prefix returns a sublist. -/
theorem upTo10_sublist (f : Filters) (df : List Record) : upTo10 f df <+ df :=
  (matterStatusStage_sublist f _).trans (upTo9_sublist f df)

/-- block-11 prefix returns a sublist. -/
theorem upTo11_sublist (f : Filters) (df : List Record) : upTo11 f df <+ df :=
  (matterStageStage_sublist f _).trans (upTo10_sublist f df)

/-- block-12 prefix returns a sublist. -/
theorem upTo12_sublist (f : Filters) (df : List Record) : upTo12 f df <+ df :=
  (billableMatterStage_sublist f _).trans (upTo11_sublist f df)

/-- block-13 prefix returns a sublist. -/
theorem upTo13_sublist (f : Filters) (df : List Record) : upTo13 f df <+ df :=
  (minAmountStage_sublist f _).trans (upTo12_sublist f df)

/-- block-14 prefix returns a sublist. -/
theorem upTo14_sublist (f : Filters) (df : List Record) : upTo14 f df <+ df :=
  (rateRangeStage_sublist f _).trans (upTo13_sublist f df)

/-- block-15 prefix returns a sublist. -/
theorem upTo15_sublist (f : Filters) (df : List Record) : upTo15 f df <+ df :=
  (clientsStage_sublist f _).trans (upTo14_sublist f df)

/-- the sixteen filter facets of a `Filters` value, one per block of
`filter_data`. -/
inductive Facet where
  | year | quarter | months | dateRange | attorneys | origAttorneys | minHours
  | practiceAreas | locations | matterStatus | matterStage | billableMatter
  | minAmount | rateRange | clients | minClientHours
deriving DecidableEq

/-- deactivate one facet of a filter specification, leaving every other
facet unchanged: the resulting specification is the "looser" one from which
the original is obtained by adding that one constraint. -/
def setInactive (x : Facet) (f : Filters) : Filters :=
  match x with
  | Facet.year => { f with year := 0 }
  | Facet.quarter => { f with quarter := none }
  | Facet.months => { f with months := [] }
  | Facet.dateRange => { f with date_range := [] }
  | Facet.attorneys => { f with attorneys := [] }
  | Facet.origAttorneys => { f with originating_attorneys := [] }
  | Facet.minHours => { f with min_hours := 0 }
  | Facet.practiceAreas => { f with practice_areas := [] }
  | Facet.locations => { f with locations := [] }
  | Facet.matterStatus => { f with matter_status := [] }
  | Facet.matterStage => { f with matter_stage := [] }
  | Facet.billableMatter => { f with billable_matter := [] }
  | Facet.minAmount => { f with min_amount := 0 }
  | Facet.rateRange => { f with rate_range := [] }
  | Facet.clients => { f with clients := [] }
  | Facet.minClientHours => { f with min_client_hours := 0 }

/-- adding one active constraint to a specification can only narrow the
result of `filter_data`, provided all billable hours are nonnegative. -/
theorem filter_data_narrowing (x : Facet) (f : Filters) (df : List Record)
    (hn : nonnegOn df) : filter_data f df <+ filter_data (setInactive x f) df := by
  cases x with
  | year =>
    have h0 : filter_data (setInactive Facet.year f) df = tail2 f df :=
      congrArg (tail2 f) (applyIf_neg (by simp [setInactive]) _ _)
    rw [h0]
    exact tail2_mono f hn (yearStage_sublist f df)
  | quarter =>
    have h0 : filter_data (setInactive Facet.quarter f) df = tail3 f (upTo1 f df) := rfl
    rw [h0]
    exact tail3_mono f (nonnegOn_of_sublist (upTo1_sublist f df) hn) (quarterStage_sublist f _)
  | months =>
    have h0 : filter_data (setInactive Facet.months f) df = tail4 f (upTo2 f df) :=
      congrArg (tail4 f) (applyIf_neg (by simp [setInactive]) _ _)
    rw [h0]
    exact tail4_mono f (nonnegOn_of_sublist (upTo2_sublist f df) hn) (monthsStage_sublist f _)
  | dateRange =>
    have h0 : filter_data (setInactive Facet.dateRange f) df = tail5 f (upTo3 f df) := rfl
    rw [h0]
    exact tail5_mono f (nonnegOn_of_sublist (upTo3_sublist f df) hn) (dateRangeStage_sublist f _)
  | attorneys =>
    have h0 : filter_data (setInactive Facet.attorneys f) df = tail6 f (upTo4 f df) :=
      congrArg (tail6 f) (applyIf_neg (by simp [setInactive]) _ _)
    rw [h0]
    exact tail6_mono f (nonnegOn_of_sublist (upTo4_sublist f df) hn) (attorneysStage_sublist f _)
  | origAttorneys =>
    have h0 : filter_data (setInactive Facet.origAttorneys f) df = tail7 f (upTo5 f df) :=
      congrArg (tail7 f) (applyIf_neg (by simp [setInactive]) _ _)
    rw [h0]
    exact tail7_mono f (nonnegOn_of_sublist (upTo5_sublist f df) hn) (origStage_sublist f _)
  | minHours =>
    have h0 : filter_data (setInactive Facet.minHours f) df = tail8 f (upTo6 f df) :=
      congrArg (tail8 f) (threshFilter_not_pos (by simp [setInactive]) _ _)
    rw [h0]
    exact tail8_mono f (nonnegOn_of_sublist (upTo6_sublist f df) hn) (minHoursStage_sublist f _)
  | practiceAreas =>
    have h0 : filter_data (setInactive Facet.practiceAreas f) df = tail9 f (upTo7 f df) :=
      congrArg (tail9 f) (applyIf_neg (by simp [setInactive]) _ _)
    rw [h0]
    exact tail9_mono f (nonnegOn_of_sublist (upTo7_sublist f df) hn) (practiceStage_sublist f _)
  | locations =>
    have h0 : filter_data (setInactive Facet.locations f) df = tail10 f (upTo8 f df) :=
      congrArg (tail10 f) (applyIf_neg (by simp [setInactive]) _ _)
    rw [h0]
    exact tail10_mono f (nonnegOn_of_sublist (upTo8_sublist f df) hn) (locationsStage_sublist f _)
  | matterStatus =>
    have h0 : filter_data (setInactive Facet.matterStatus f) df = tail11 f (upTo9 f df) :=
      congrArg (tail11 f) (applyIf_neg (by simp [setInactive]) _ _)
    rw [h0]
    exact tail11_mono f (nonnegOn_of_sublist (upTo9_sublist f df) hn)
      (matterStatusStage_sublist f _)
  | matterStage =>
    have h0 : filter_data (setInactive Facet.matterStage f) df = tail12 f (upTo10 f df) :=
      congrArg (tail12 f) (applyIf_neg (by simp [setInactive]) _ _)
    rw [h0]
    exact tail12_mono f (nonnegOn_of_sublist (upTo10_sublist f df) hn)
      (matterStageStage_sublist f _)
  | billableMatter =>
    have h0 : filter_data (setInactive Facet.billableMatter f) df = tail13 f (upTo11 f df) :=
      congrArg (tail13 f) (applyIf_neg (by simp [setInactive]) _ _)
    rw [h0]
    exact tail13_mono f (nonnegOn_of_sublist (upTo11_sublist f df) hn)
      (billableMatterStage_sublist f _)
  | minAmount =>
    have h0 : filter_data (setInactive Facet.minAmount f) df = tail14 f (upTo12 f df) :=
      congrArg (tail14 f) (applyIf_neg (by simp [setInactive]) _ _)
    rw [h0]
    exact tail14_mono f (nonnegOn_of_sublist (upTo12_sublist f df) hn)
      (minAmountStage_sublist f _)
  | rateRange =>
    have h0 : filter_data (setInactive Facet.rateRange f) df = tail15 f (upTo13 f df) := rfl
    rw [h0]
    exact tail15_mono f (nonnegOn_of_sublist (upTo13_sublist f df) hn)
      (rateRangeStage_sublist f _)
  | clients =>
    have h0 : filter_data (setInactive Facet.clients f) df = tail16 f (upTo14 f df) :=
      congrArg (tail16 f) (applyIf_neg (by simp [setInactive]) _ _)
    rw [h0]
    exact tail16_mono f (nonnegOn_of_sublist (upTo14_sublist f df) hn) (clientsStage_sublist f _)
  | minClientHours =>
    have h0 : filter_data (setInactive Facet.minClientHours f) df = upTo15 f df := by
      show minClientStage (setInactive Facet.minClientHours f) (upTo15 f df) = upTo15 f df
      exact threshFilter_not_pos (by simp [setInactive]) _ _
    rw [h0]
    exact minClientStage_sublist f (upTo15 f df)

/-- the filtering block of `filter_data` that handles a given facet. -/
def facetStage (x : Facet) : Filters → List Record → List Record :=
  match x with
  | Facet.year => yearStage
  | Facet.quarter => quarterStage
  | Facet.months => monthsStage
  | Facet.dateRange => dateRangeStage
  | Facet.attorneys => attorneysStage
  | Facet.origAttorneys => origStage
  | Facet.minHours => minHoursStage
  | Facet.practiceAreas => practiceStage
  | Facet.locations => locationsStage
  | Facet.matterStatus => matterStatusStage
  | Facet.matterStage => matterStageStage
  | Facet.billableMatter => billableMatterStage
  | Facet.minAmount => minAmountStage
  | Facet.rateRange => rateRangeStage
  | Facet.clients => clientsStage
  | Facet.minClientHours => minClientStage

/-- the per-record predicate of an independent (non-threshold) facet block;
inactive blocks and the two threshold facets map to the constant `true`. -/
def facetPred (x : Facet) (f : Filters) : Record → Bool :=
  match x with
  | Facet.year => fun r => if f.year ≠ 0 then decide (r.year = f.year) else true
  | Facet.quarter => fun r =>
      match f.quarter with
      | none => true
      | some q => if q ≠ 0 then decide (r.quarter = q) else true
  | Facet.months => fun r => if f.months ≠ [] then decide (r.month_name ∈ f.months) else true
  | Facet.dateRange => fun r =>
      match f.date_range with
      | [a, b] => ADate.ble a r.activity_date && ADate.ble r.activity_date b
      | _ => true
  | Facet.attorneys => fun r =>
      if f.attorneys ≠ [] then decide (r.attorney ∈ f.attorneys) else true
  | Facet.origAttorneys => fun r =>
      if f.originating_attorneys ≠ [] then optMem r.originating_attorney f.originating_attorneys
      else true
  | Facet.minHours => fun _ => true
  | Facet.practiceAreas => fun r =>
      if f.practice_areas ≠ [] then decide (r.practice_area ∈ f.practice_areas) else true
  | Facet.locations => fun r =>
      if f.locations ≠ [] then decide (r.matter_location ∈ f.locations) else true
  | Facet.matterStatus => fun r =>
      if f.matter_status ≠ [] then optMem r.matter_status f.matter_status else true
  | Facet.matterStage => fun r =>
      if f.matter_stage ≠ [] then optMem r.matter_stage f.matter_stage else true
  | Facet.billableMatter => fun r =>
      if f.billable_matter ≠ [] then optMem r.billable_matter f.billable_matter else true
  | Facet.minAmount => fun r =>
      if 0 < f.min_amount then decide (f.min_amount ≤ r.billable_hours_amount) else true
  | Facet.rateRange => fun r =>
      match f.rate_range with
      | [lo, hi] =>
          decide (lo ≤ r.billable_hours_amount) && decide (r.billable_hours_amount ≤ hi)
      | _ => true
  | Facet.clients => fun r =>
      if f.clients ≠ [] then decide (r.matter_description ∈ f.clients) else true
  | Facet.minClientHours => fun _ => true

/-- an `applyIf` block is the filter by its conditionalized predicate. -/
theorem applyIf_eq_filter (c : Prop) [Decidable c] (p : Record → Bool) (l : List Record) :
    applyIf c p l = l.filter (fun r => if c then p r else true) := by
  by_cases h : c
  · simp [applyIf, h]
  · simp [applyIf, h]

/-- the quarter block is the filter by its facet predicate. -/
theorem quarterStage_eq_filter (f : Filters) (l : List Record) :
    quarterStage f l = l.filter (facetPred Facet.quarter f) := by
  unfold quarterStage facetPred
  cases hq : f.quarter with
  | none => simp
  | some q =>
    by_cases h : q ≠ 0
    · simp [h]
    · simp [h]

/-- the date range block is the filter by its facet predicate. -/
theorem dateRangeStage_eq_filter (f : Filters) (l : List Record) :
    dateRangeStage f l = l.filter (facetPred Facet.dateRange f) := by
  unfold dateRangeStage facetPred
  cases hd : f.date_range with
  | nil => simp
  | cons a t =>
    cases t with
    | nil => simp
    | cons b u =>
      cases u with
      | nil => rfl
      | cons c v => simp

/-- the rate range block is the filter by its facet predicate. -/
theorem rateRangeStage_eq_filter (f : Filters) (l : List Record) :
    rateRangeStage f l = l.filter (facetPred Facet.rateRange f) := by
  unfold rateRangeStage facetPred
  cases hd : f.rate_range with
  | nil => simp
  | cons a t =>
    cases t with
    | nil => simp
    | cons b u =>
      cases u with
      | nil => rfl
      | cons c v => simp

/-- every independent (non-threshold) facet block is a plain per-record
filter by its facet predicate. -/
theorem facetStage_eq_filter (x : Facet) (hx1 : x ≠ Facet.minHours)
    (hx2 : x ≠ Facet.minClientHours) (f : Filters) (l : List Record) :
    facetStage x f l = l.filter (facetPred x f) := by
  cases x with
  | year => exact applyIf_eq_filter _ _ _
  | quarter => exact quarterStage_eq_filter f l
  | months => exact applyIf_eq_filter _ _ _
  | dateRange => exact dateRangeStage_eq_filter f l
  | attorneys => exact applyIf_eq_filter _ _ _
  | origAttorneys => exact applyIf_eq_filter _ _ _
  | minHours => exact absurd rfl hx1
  | practiceAreas => exact applyIf_eq_filter _ _ _
  | locations => exact applyIf_eq_filter _ _ _
  | matterStatus => exact applyIf_eq_filter _ _ _
  | matterStage => exact applyIf_eq_filter _ _ _
  | billableMatter => exact applyIf_eq_filter _ _ _
  | minAmount => exact applyIf_eq_filter _ _ _
  | rateRange => exact rateRangeStage_eq_filter f l
  | clients => exact applyIf_eq_filter _ _ _
  | minClientHours => exact absurd rfl hx2

/-- two plain filters over the same list commute. -/
theorem filter_comm_of (p q : Record → Bool) (l : List Record) :
    (l.filter p).filter q = (l.filter q).filter p := by
  simp only [List.filter_filter]
  exact List.filter_congr (fun a _ => Bool.and_comm _ _)

/-- membership in an independent facet block, together with its predicate. -/
theorem stageMem (x : Facet) (hx1 : x ≠ Facet.minHours) (hx2 : x ≠ Facet.minClientHours)
    {f : Filters} {m : List Record} {r : Record} (h : r ∈ facetStage x f m) :
    r ∈ m ∧ facetPred x f r = true := by
  rw [facetStage_eq_filter x hx1 hx2] at h
  exact ⟨List.mem_of_mem_filter h, List.of_mem_filter h⟩

/-- an independent facet block fixes a list all of whose rows satisfy its
predicate. -/
theorem stageSelf (x : Facet) (hx1 : x ≠ Facet.minHours) (hx2 : x ≠ Facet.minClientHours)
    {f : Filters} {m : List Record} (h : ∀ r ∈ m, facetPred x f r = true) :
    facetStage x f m = m := by
  rw [facetStage_eq_filter x hx1 hx2]
  exact List.filter_eq_self.mpr h

/-- the fourteen independent blocks of `filter_data`, composed in source
order (every block except the two aggregate thresholds). -/
def indepChain (f : Filters) (l : List Record) : List Record :=
  clientsStage f (rateRangeStage f (minAmountStage f (billableMatterStage f
    (matterStageStage f (matterStatusStage f (locationsStage f (practiceStage f
      (origStage f (attorneysStage f (dateRangeStage f (monthsStage f
        (quarterStage f (yearStage f l)))))))))))))

/-- a row surviving the independent chain is an input row satisfying every
independent facet predicate. -/
theorem indepChain_mem {f : Filters} {l : List Record} {r : Record}
    (h : r ∈ indepChain f l) : r ∈ l ∧ ∀ x, facetPred x f r = true := by
  obtain ⟨h2, hp15⟩ := stageMem Facet.clients (by decide) (by decide) h
  obtain ⟨h3, hp14⟩ := stageMem Facet.rateRange (by decide) (by decide) h2
  obtain ⟨h4, hp13⟩ := stageMem Facet.minAmount (by decide) (by decide) h3
  obtain ⟨h5, hp12⟩ := stageMem Facet.billableMatter (by decide) (by decide) h4
  obtain ⟨h6, hp11⟩ := stageMem Facet.matterStage (by decide) (by decide) h5
  obtain ⟨h7, hp10⟩ := stageMem Facet.matterStatus (by decide) (by decide) h6
  obtain ⟨h8, hp9⟩ := stageMem Facet.locations (by decide) (by decide) h7
  obtain ⟨h9, hp8⟩ := stageMem Facet.practiceAreas (by decide) (by decide) h8
  obtain ⟨h10, hp6⟩ := stageMem Facet.origAttorneys (by decide) (by decide) h9
  obtain ⟨h11, hp5⟩ := stageMem Facet.attorneys (by decide) (by decide) h10
  obtain ⟨h12, hp4⟩ := stageMem Facet.dateRange (by decide) (by decide) h11
  obtain ⟨h13, hp3⟩ := stageMem Facet.months (by decide) (by decide) h12
  obtain ⟨h14, hp2⟩ := stageMem Facet.quarter (by decide) (by decide) h13
  obtain ⟨h15, hp1⟩ := stageMem Facet.year (by decide) (by decide) h14
  refine ⟨h15, ?_⟩
  intro x
  cases x <;> first | rfl | assumption

/-- the independent chain fixes a list all of whose rows satisfy every
independent facet predicate. -/
theorem indepChain_eq_self {f : Filters} {m : List Record}
    (h : ∀ r ∈ m, ∀ x, facetPred x f r = true) : indepChain f m = m := by
  have e1 : yearStage f m = m :=
    stageSelf Facet.year (by decide) (by decide) (fun r hr => h r hr Facet.year)
  have e2 : quarterStage f m = m :=
    stageSelf Facet.quarter (by decide) (by decide) (fun r hr => h r hr Facet.quarter)
  have e3 : monthsStage f m = m :=
    stageSelf Facet.months (by decide) (by decide) (fun r hr => h r hr Facet.months)
  have e4 : dateRangeStage f m = m :=
    stageSelf Facet.dateRange (by decide) (by decide) (fun r hr => h r hr Facet.dateRange)
  have e5 : attorneysStage f m = m :=
    stageSelf Facet.attorneys (by decide) (by decide) (fun r hr => h r hr Facet.attorneys)
  have e6 : origStage f m = m :=
    stageSelf Facet.origAttorneys (by decide) (by decide) (fun r hr => h r hr Facet.origAttorneys)
  have e8 : practiceStage f m = m :=
    stageSelf Facet.practiceAreas (by decide) (by decide) (fun r hr => h r hr Facet.practiceAreas)
  have e9 : locationsStage f m = m :=
    stageSelf Facet.locations (by decide) (by decide) (fun r hr => h r hr Facet.locations)
  have e10 : matterStatusStage f m = m :=
    stageSelf Facet.matterStatus (by decide) (by decide) (fun r hr => h r hr Facet.matterStatus)
  have e11 : matterStageStage f m = m :=
    stageSelf Facet.matterStage (by decide) (by decide) (fun r hr => h r hr Facet.matterStage)
  have e12 : billableMatterStage f m = m :=
    stageSelf Facet.billableMatter (by decide) (by decide)
      (fun r hr => h r hr Facet.billableMatter)
  have e13 : minAmountStage f m = m :=
    stageSelf Facet.minAmount (by decide) (by decide) (fun r hr => h r hr Facet.minAmount)
  have e14 : rateRangeStage f m = m :=
    stageSelf Facet.rateRange (by decide) (by decide) (fun r hr => h r hr Facet.rateRange)
  have e15 : clientsStage f m = m :=
    stageSelf Facet.clients (by decide) (by decide) (fun r hr => h r hr Facet.clients)
  show clientsStage f (rateRangeStage f (minAmountStage f (billableMatterStage f
    (matterStageStage f (matterStatusStage f (locationsStage f (practiceStage f
      (origStage f (attorneysStage f (dateRangeStage f (monthsStage f
        (quarterStage f (yearStage f m))))))))))))) = m
  rw [e1, e2, e3, e4, e5, e6, e8, e9, e10, e11, e12, e13, e14, e15]

/-- applying an aggregate-threshold block twice is the same as applying it
once: retained groups keep all their rows, so their sums are unchanged. -/
theorem threshFilter_idem (θ : ℚ) (key : Record → String) (l : List Record) :
    threshFilter θ key (threshFilter θ key l) = threshFilter θ key l := by
  by_cases hp : 0 < θ
  · simp only [threshFilter, if_pos hp]
    apply List.filter_eq_self.mpr
    intro r hr
    have hpr : θ ≤ sumBy key (fun x => x.billable_hours) l (key r) := by
      have := List.of_mem_filter hr
      simpa using this
    have hfil :
        (l.filter (fun a =>
            decide (θ ≤ sumBy key (fun x => x.billable_hours) l (key a)))).filter
          (fun a => decide (key a = key r)) =
        l.filter (fun a => decide (key a = key r)) := by
      rw [List.filter_filter]
      apply List.filter_congr
      intro a _
      by_cases hk : key a = key r
      · simp [hk, hpr]
      · simp [hk]
    have hsum : sumBy key (fun x => x.billable_hours)
        (l.filter (fun a =>
          decide (θ ≤ sumBy key (fun x => x.billable_hours) l (key a)))) (key r) =
        sumBy key (fun x => x.billable_hours) l (key r) :=
      congrArg (fun t : List Record => (List.map (fun x : Record => x.billable_hours) t).sum) hfil
    simp only [decide_eq_true_eq]
    rw [hsum]
    exact hpr
  · simp [threshFilter, hp]

/-- when the attorney threshold is inactive, `filter_data` is the
independent chain followed by the client threshold. -/
theorem filter_data_minHours_inactive (f : Filters) (h : ¬ 0 < f.min_hours)
    (df : List Record) : filter_data f df = minClientStage f (indepChain f df) := by
  have h1 : minHoursStage f (upTo6 f df) = upTo6 f df := threshFilter_not_pos h _ _
  show tail8 f (minHoursStage f (upTo6 f df)) = minClientStage f (indepChain f df)
  rw [h1]
  rfl

/-- `filter_data` is idempotent whenever the attorney threshold is
inactive. -/
theorem filter_data_idem_of_minHours_inactive (f : Filters) (df : List Record)
    (h : ¬ 0 < f.min_hours) : filter_data f (filter_data f df) = filter_data f df := by
  rw [filter_data_minHours_inactive f h df,
    filter_data_minHours_inactive f h (minClientStage f (indepChain f df))]
  have hIC : indepChain f (minClientStage f (indepChain f df)) =
      minClientStage f (indepChain f df) := by
    apply indepChain_eq_self
    intro r hr x
    have hr2 : r ∈ indepChain f df := (minClientStage_sublist f _).subset hr
    exact (indepChain_mem hr2).2 x
  rw [hIC]
  exact threshFilter_idem _ _ _

/-- `dedup` commutes with `filter`. -/
theorem dedup_filter_comm {α : Type} [DecidableEq α] (p : α → Bool) :
    ∀ xs : List α, (xs.filter p).dedup = xs.dedup.filter p := by
  intro xs
  induction xs with
  | nil => simp
  | cons a t ih =>
    by_cases hp : p a
    · by_cases hm : a ∈ t
      · rw [List.filter_cons_of_pos hp, List.dedup_cons_of_mem hm,
          List.dedup_cons_of_mem (List.mem_filter_of_mem hm hp)]
        exact ih
      · have hm2 : a ∉ t.filter p := fun hc => hm (List.mem_of_mem_filter hc)
        rw [List.filter_cons_of_pos hp, List.dedup_cons_of_not_mem hm,
          List.dedup_cons_of_not_mem hm2, List.filter_cons_of_pos hp, ih]
    · rw [List.filter_cons_of_neg hp]
      by_cases hm : a ∈ t
      · rw [List.dedup_cons_of_mem hm]
        exact ih
      · rw [List.dedup_cons_of_not_mem hm, List.filter_cons_of_neg hp]
        exact ih

/-- summing all group sums of a grouping recovers the total sum, for any
duplicate-free key list covering the grouped rows. -/
theorem sum_fiber {κ : Type} [DecidableEq κ] (key : Record → κ) (val : Record → ℚ) :
    ∀ (keys : List κ) (S : List Record), keys.Nodup → (∀ r ∈ S, key r ∈ keys) →
      (keys.map (fun k => sumBy key val S k)).sum = (S.map val).sum := by
  intro keys
  induction keys with
  | nil =>
    intro S _ hmem
    cases S with
    | nil => simp
    | cons a t => exact absurd (hmem a (List.mem_cons_self a t)) (List.not_mem_nil _)
  | cons k ks ih =>
    intro S hnd hmem
    have hknotin : k ∉ ks := (List.nodup_cons.mp hnd).1
    have hperm := List.filter_append_perm (fun r => decide (key r = k)) S
    have hsplit : ((S.filter (fun r => decide (key r = k))).map val).sum +
        ((S.filter (fun r => !decide (key r = k))).map val).sum = (S.map val).sum := by
      have h2 := (hperm.map val).sum_eq
      rw [List.map_append, List.sum_append] at h2
      exact h2
    have htail : ∀ k2 ∈ ks, sumBy key val S k2 =
        sumBy key val (S.filter (fun r => !decide (key r = k))) k2 := by
      intro k2 hk2
      have hne : k2 ≠ k := fun hc => hknotin (hc ▸ hk2)
      have hfe : (S.filter (fun r => !decide (key r = k))).filter
          (fun r => decide (key r = k2)) = S.filter (fun r => decide (key r = k2)) := by
        rw [List.filter_filter]
        apply List.filter_congr
        intro a _
        by_cases hk : key a = k2
        · simp [hk, hne]
        · simp [hk]
      exact (congrArg (fun t : List Record => (List.map val t).sum) hfe).symm
    have hmem2 : ∀ r ∈ S.filter (fun r => !decide (key r = k)), key r ∈ ks := by
      intro r hr
      have h1 : r ∈ S := List.mem_of_mem_filter hr
      have h2 : ¬ (key r = k) := by
        have := List.of_mem_filter hr
        simpa using this
      have h3 := hmem r h1
      rcases List.mem_cons.mp h3 with hc | hc
      · exact absurd hc h2
      · exact hc
    calc ((k :: ks).map (fun k2 => sumBy key val S k2)).sum
        = sumBy key val S k + (ks.map (fun k2 => sumBy key val S k2)).sum := by
          rw [List.map_cons, List.sum_cons]
      _ = sumBy key val S k +
          (ks.map (fun k2 =>
            sumBy key val (S.filter (fun r => !decide (key r = k))) k2)).sum := by
          rw [List.map_congr_left htail]
      _ = sumBy key val S k +
          ((S.filter (fun r => !decide (key r = k))).map val).sum := by
          rw [ih (S.filter (fun r => !decide (key r = k))) (List.nodup_cons.mp hnd).2 hmem2]
      _ = (S.map val).sum := hsplit

/-- the (client, practice area) grouping key of
`create_client_practice_area_chart`. -/
def clientAreaKey (r : Record) : String × String := (r.matter_description, r.practice_area)

/-- `create_practice_area_analysis`: one row per practice area with the
summed billable hours and billable amount (`groupby('Practice area')`;
pandas key order is abstracted, the row of a key is unique). -/
def create_practice_area_analysis (l : List Record) : List (String × ℚ × ℚ) :=
  ((l.map (fun r => r.practice_area)).dedup).map (fun a =>
    (a, sumBy (fun r => r.practice_area) (fun r => r.billable_hours) l a,
        sumBy (fun r => r.practice_area) (fun r => r.billable_hours_amount) l a))

/-- `create_client_practice_area_chart`: one row per (client, practice
area) pair with the summed billable hours. -/
def create_client_practice_area_chart (l : List Record) : List ((String × String) × ℚ) :=
  ((l.map clientAreaKey).dedup).map (fun k =>
    (k, sumBy clientAreaKey (fun r => r.billable_hours) l k))

/-- hierarchical consistency of the two-level (client, practice area)
grouping against the one-level practice area grouping: for a fixed area,
the two-level billable sums restricted to that area add up to the
one-level billable sum. -/
theorem client_area_sum_eq (l : List Record) (A : String) :
    (((create_client_practice_area_chart l).filter (fun g => decide (g.1.2 = A))).map
      (fun g => g.2)).sum =
    sumBy (fun r => r.practice_area) (fun r => r.billable_hours) l A := by
  have hfm : (create_client_practice_area_chart l).filter (fun g => decide (g.1.2 = A)) =
      ((l.map clientAreaKey).dedup.filter (fun k => decide (k.2 = A))).map (fun k =>
        (k, sumBy clientAreaKey (fun r => r.billable_hours) l k)) := by
    unfold create_client_practice_area_chart
    rw [List.filter_map]
    exact congrArg _ (List.filter_congr (fun k _ => rfl))
  have hmm2 : (l.map clientAreaKey).dedup.filter (fun k => decide (k.2 = A)) =
      ((l.filter (fun r => decide (r.practice_area = A))).map clientAreaKey).dedup := by
    rw [← dedup_filter_comm, List.filter_map]
    exact congrArg _ (congrArg _ (List.filter_congr (fun r _ => rfl)))
  have hsums : ∀ k ∈ ((l.filter (fun r => decide (r.practice_area = A))).map
      clientAreaKey).dedup,
      sumBy clientAreaKey (fun r => r.billable_hours) l k =
      sumBy clientAreaKey (fun r => r.billable_hours)
        (l.filter (fun r => decide (r.practice_area = A))) k := by
    intro k hk
    have hk2 : k.2 = A := by
      rw [List.mem_dedup] at hk
      obtain ⟨r, hr, hkr⟩ := List.mem_map.mp hk
      have hra : r.practice_area = A := by simpa using List.of_mem_filter hr
      rw [← hkr]
      exact hra
    have hfe : (l.filter (fun r => decide (r.practice_area = A))).filter
        (fun r => decide (clientAreaKey r = k)) =
        l.filter (fun r => decide (clientAreaKey r = k)) := by
      rw [List.filter_filter]
      apply List.filter_congr
      intro a _
      by_cases hak : clientAreaKey a = k
      · have ha2 : a.practice_area = A := by
          have h2 := congrArg Prod.snd hak
          simpa [clientAreaKey, hk2] using h2
        simp [hak, ha2]
      · simp [hak]
    exact (congrArg (fun t : List Record =>
      (List.map (fun r : Record => r.billable_hours) t).sum) hfe).symm
  rw [hfm, List.map_map, hmm2]
  have hcomp : (((l.filter (fun r => decide (r.practice_area = A))).map
        clientAreaKey).dedup).map
        ((fun g : (String × String) × ℚ => g.2) ∘ (fun k =>
          (k, sumBy clientAreaKey (fun r => r.billable_hours) l k))) =
      (((l.filter (fun r => decide (r.practice_area = A))).map clientAreaKey).dedup).map
        (fun k => sumBy clientAreaKey (fun r => r.billable_hours) l k) :=
    List.map_congr_left (fun k _ => rfl)
  rw [hcomp, List.map_congr_left hsums,
    sum_fiber clientAreaKey (fun r => r.billable_hours) _ _ (List.nodup_dedup _)
      (fun r hr => List.mem_dedup.mpr (List.mem_map_of_mem _ hr))]
  rfl

/-- one row of `create_client_metrics_table`: summed columns rounded to two
decimals, plus the three derived ratio columns, computed exactly as in the
source — with no zero-denominator guard. -/
structure ClientMetricsRow where
  billable_hours : ℚ
  billed_hours : ℚ
  non_billable_hours : ℚ
  billable_hours_amount : ℚ
  billed_hours_amount : ℚ
  tracked_hours : ℚ
  utilization_rate : PVal
  average_rate : PVal
  efficiency_rate : PVal
deriving DecidableEq

/-- the `create_client_metrics_table` row of one client (`Matter
description` group): `groupby('Matter description').agg('sum').round(2)`,
then `Utilization Rate = (billable / tracked * 100).round(2)`,
`Average Rate = (amount / billable).round(2)`,
`Efficiency Rate = (billed / billable * 100).round(2)`. -/
def create_client_metrics_row (l : List Record) (k : String) : ClientMetricsRow :=
  let bh := round2 (sumBy (fun r => r.matter_description) (fun r => r.billable_hours) l k)
  let bdh := round2 (sumBy (fun r => r.matter_description) (fun r => r.billed_hours) l k)
  let nbh := round2 (sumBy (fun r => r.matter_description) (fun r => r.non_billable_hours) l k)
  let bha := round2 (sumBy (fun r => r.matter_description)
    (fun r => r.billable_hours_amount) l k)
  let bdha := round2 (sumBy (fun r => r.matter_description) (fun r => r.billed_hours_amount) l k)
  let th := round2 (sumBy (fun r => r.matter_description) (fun r => r.tracked_hours) l k)
  { billable_hours := bh
    billed_hours := bdh
    non_billable_hours := nbh
    billable_hours_amount := bha
    billed_hours_amount := bdha
    tracked_hours := th
    utilization_rate := pround2 (pmul100 (pdivQ bh th))
    average_rate := pround2 (pdivQ bha bh)
    efficiency_rate := pround2 (pmul100 (pdivQ bdh bh)) }

/-- one row of the attorney metrics table built in `main`. -/
structure AttorneyMetricsRow where
  billable_hours : ℚ
  non_billable_hours : ℚ
  billed_hours : ℚ
  billable_hours_amount : ℚ
  billed_hours_amount : ℚ
  tracked_hours : ℚ
  utilization_rate : PVal
  average_rate : PVal
deriving DecidableEq

/-- the attorney metrics row of `main` for one attorney:
`groupby('User full name (first, last)').agg('sum').round(2)`, then
`Utilization Rate = (billable / tracked * 100).round(2)` and
`Average Rate = (amount / billable).round(2)` — again with no
zero-denominator guard. -/
def attorney_metrics_row (l : List Record) (k : String) : AttorneyMetricsRow :=
  let bh := round2 (sumBy (fun r => r.attorney) (fun r => r.billable_hours) l k)
  let nbh := round2 (sumBy (fun r => r.attorney) (fun r => r.non_billable_hours) l k)
  let bdh := round2 (sumBy (fun r => r.attorney) (fun r => r.billed_hours) l k)
  let bha := round2 (sumBy (fun r => r.attorney) (fun r => r.billable_hours_amount) l k)
  let bdha := round2 (sumBy (fun r => r.attorney) (fun r => r.billed_hours_amount) l k)
  let th := round2 (sumBy (fun r => r.attorney) (fun r => r.tracked_hours) l k)
  { billable_hours := bh
    non_billable_hours := nbh
    billed_hours := bdh
    billable_hours_amount := bha
    billed_hours_amount := bdha
    tracked_hours := th
    utilization_rate := pround2 (pmul100 (pdivQ bh th))
    average_rate := pround2 (pdivQ bha bh) }

/-- Modelled from the spec: the evaluation order claimed by the
specification — every independent predicate first (in source order), then
the attorney threshold, then the client threshold. -/
def filter_data_spec_order (f : Filters) (df : List Record) : List Record :=
  minClientStage f (minHoursStage f (indepChain f df))

/-- the six independent blocks that precede the attorney threshold in the
source (time facets and attorney multi-selects). -/
def earlyIndepChain (f : Filters) (l : List Record) : List Record :=
  origStage f (attorneysStage f (dateRangeStage f (monthsStage f
    (quarterStage f (yearStage f l)))))

/-- the eight independent blocks between the attorney threshold and the
client threshold in the source (practice, matter, financial and client
multi-selects). -/
def lateIndepChain (f : Filters) (l : List Record) : List Record :=
  clientsStage f (rateRangeStage f (minAmountStage f (billableMatterStage f
    (matterStageStage f (matterStatusStage f (locationsStage f (practiceStage f l)))))))

/-- conjunction of the six facet predicates of the early independent
blocks. -/
def earlyPred (f : Filters) (r : Record) : Bool :=
  facetPred Facet.origAttorneys f r && (facetPred Facet.attorneys f r &&
    (facetPred Facet.dateRange f r && (facetPred Facet.months f r &&
      (facetPred Facet.quarter f r && facetPred Facet.year f r))))

/-- conjunction of the eight facet predicates of the late independent
blocks. -/
def latePred (f : Filters) (r : Record) : Bool :=
  facetPred Facet.clients f r && (facetPred Facet.rateRange f r &&
    (facetPred Facet.minAmount f r && (facetPred Facet.billableMatter f r &&
      (facetPred Facet.matterStage f r && (facetPred Facet.matterStatus f r &&
        (facetPred Facet.locations f r && facetPred Facet.practiceAreas f r))))))

/-- the early independent blocks amount to one per-record filter. -/
theorem earlyIndepChain_eq_filter (f : Filters) (l : List Record) :
    earlyIndepChain f l = l.filter (earlyPred f) := by
  have hy : ∀ m : List Record, yearStage f m = m.filter (facetPred Facet.year f) :=
    fun m => facetStage_eq_filter Facet.year (by decide) (by decide) f m
  have hq : ∀ m : List Record, quarterStage f m = m.filter (facetPred Facet.quarter f) :=
    fun m => facetStage_eq_filter Facet.quarter (by decide) (by decide) f m
  have hmo : ∀ m : List Record, monthsStage f m = m.filter (facetPred Facet.months f) :=
    fun m => facetStage_eq_filter Facet.months (by decide) (by decide) f m
  have hdr : ∀ m : List Record, dateRangeStage f m = m.filter (facetPred Facet.dateRange f) :=
    fun m => facetStage_eq_filter Facet.dateRange (by decide) (by decide) f m
  have hat : ∀ m : List Record, attorneysStage f m = m.filter (facetPred Facet.attorneys f) :=
    fun m => facetStage_eq_filter Facet.attorneys (by decide) (by decide) f m
  have hor : ∀ m : List Record, origStage f m = m.filter (facetPred Facet.origAttorneys f) :=
    fun m => facetStage_eq_filter Facet.origAttorneys (by decide) (by decide) f m
  unfold earlyIndepChain
  rw [hy, hq, hmo, hdr, hat, hor]
  simp only [List.filter_filter]
  exact List.filter_congr (fun a _ => rfl)

/-- the late independent blocks amount to one per-record filter. -/
theorem lateIndepChain_eq_filter (f : Filters) (l : List Record) :
    lateIndepChain f l = l.filter (latePred f) := by
  have hpa : ∀ m : List Record, practiceStage f m = m.filter (facetPred Facet.practiceAreas f) :=
    fun m => facetStage_eq_filter Facet.practiceAreas (by decide) (by decide) f m
  have hlo : ∀ m : List Record, locationsStage f m = m.filter (facetPred Facet.locations f) :=
    fun m => facetStage_eq_filter Facet.locations (by decide) (by decide) f m
  have hms : ∀ m : List Record,
      matterStatusStage f m = m.filter (facetPred Facet.matterStatus f) :=
    fun m => facetStage_eq_filter Facet.matterStatus (by decide) (by decide) f m
  have hmg : ∀ m : List Record, matterStageStage f m = m.filter (facetPred Facet.matterStage f) :=
    fun m => facetStage_eq_filter Facet.matterStage (by decide) (by decide) f m
  have hbm : ∀ m : List Record,
      billableMatterStage f m = m.filter (facetPred Facet.billableMatter f) :=
    fun m => facetStage_eq_filter Facet.billableMatter (by decide) (by decide) f m
  have hma : ∀ m : List Record, minAmountStage f m = m.filter (facetPred Facet.minAmount f) :=
    fun m => facetStage_eq_filter Facet.minAmount (by decide) (by decide) f m
  have hrr : ∀ m : List Record, rateRangeStage f m = m.filter (facetPred Facet.rateRange f) :=
    fun m => facetStage_eq_filter Facet.rateRange (by decide) (by decide) f m
  have hcl : ∀ m : List Record, clientsStage f m = m.filter (facetPred Facet.clients f) :=
    fun m => facetStage_eq_filter Facet.clients (by decide) (by decide) f m
  unfold lateIndepChain
  rw [hpa, hlo, hms, hmg, hbm, hma, hrr, hcl]
  simp only [List.filter_filter]
  exact List.filter_congr (fun a _ => rfl)

/-- an enriched record with the given attorney, client, practice area and
hour/amount figures; remaining fields are fixed neutral values. -/
def mkRec (att ds area : String) (bh nbh tr bld amt : ℚ) : Record :=
  { activity_date := ⟨2024, 1, 15⟩
    year := 2024
    month := 1
    month_name := "January"
    quarter := 1
    attorney := att
    originating_attorney := none
    practice_area := area
    matter_location := "Unspecified"
    matter_status := none
    matter_stage := none
    billable_matter := none
    matter_description := ds
    billable_hours := bh
    non_billable_hours := nbh
    billed_hours := bld
    unbilled_hours := 0
    tracked_hours := tr
    billable_hours_amount := amt
    billed_hours_amount := 0
    total_hours := bh + nbh
    utilization_rate := PVal.num 0 }

/-- a filter specification with every facet inactive. -/
def noFilters : Filters :=
  { year := 0
    quarter := none
    months := []
    date_range := []
    attorneys := []
    originating_attorneys := []
    min_hours := 0
    practice_areas := []
    locations := []
    matter_status := []
    matter_stage := []
    billable_matter := []
    min_amount := 0
    rate_range := []
    clients := []
    min_client_hours := 0 }

/-- first record of the threshold-ordering example: attorney X, 6 billable
hours in practice area L (client C1). -/
def recX1 : Record := mkRec "X" "C1" "L" 6 0 6 0 0

/-- second record of the threshold-ordering example: attorney X, 6 billable
hours in practice area Cp (client C2). -/
def recX2 : Record := mkRec "X" "C2" "Cp" 6 0 6 0 0

/-- the two-record collection of the threshold-ordering example. -/
def pairRecs : List Record := [recX1, recX2]

/-- specification activating the practice area multi-select (L only) and a
minimum-attorney-hours threshold of 10. -/
def fPair : Filters := { noFilters with practice_areas := ["L"], min_hours := 10 }

/-- specification with only the client threshold active. -/
def fClient : Filters := { noFilters with min_client_hours := 5 }

/-- the three records of the concrete scenario in the specification. -/
def recA1 : Record := mkRec "A" "M1" "Litigation" 5 0 5 4 1000

/-- second scenario record. -/
def recA2 : Record := mkRec "A" "M2" "Litigation" 3 0 3 3 600

/-- third scenario record. -/
def recB : Record := mkRec "B" "M3" "Corporate" 10 5 15 8 2500

/-- the scenario collection of §8 of the specification. -/
def scenarioRecs : List Record := [recA1, recA2, recB]

/-- a record whose hours columns are all zero (a client group with no
billable activity). -/
def zeroRec : Record := mkRec "Z" "c" "P" 0 0 0 0 0

/-- a raw record with ordinary values in every column. -/
def rawBase : RawRecord :=
  { activity_date := ⟨2024, 1, 15⟩
    attorney := "A"
    originating_attorney := none
    practice_area := some "Litigation"
    matter_location := some "NY"
    matter_status := none
    matter_stage := none
    billable_matter := none
    matter_description := some "M1"
    billable_hours := 3
    non_billable_hours := 1
    billed_hours := 2
    unbilled_hours := 0
    tracked_hours := 4
    billable_hours_amount := 300
    billed_hours_amount := 200 }

/-- a raw record whose practice area is present but the empty string. -/
def rawEmptyPA : RawRecord := { rawBase with practice_area := some "" }

/-- claim C1, counterexample: the evaluator does not apply all independent
predicates before the attorney threshold.  On two records of attorney X
(6 billable hours in area L, 6 in area Cp) with the practice filter L and
minimum attorney hours 10, the source pipeline keeps X's L record (the
attorney grouping is computed before the practice filter and sees 12
hours), while the spec-claimed order (all independent predicates first)
returns the empty list; the two evaluators disagree. -/
theorem claim_C1_counterexample :
    filter_data fPair pairRecs = [recX1] ∧
    filter_data_spec_order fPair pairRecs = [] ∧
    filter_data fPair pairRecs ≠ filter_data_spec_order fPair pairRecs := by
  have h1 : filter_data fPair pairRecs = [recX1] := by with_unfolding_all rfl
  have h2 : filter_data_spec_order fPair pairRecs = [] := by with_unfolding_all rfl
  refine ⟨h1, h2, ?_⟩
  intro h
  rw [h1, h2] at h
  exact List.noConfusion h

/-- claim C1, amended: the evaluator applies the six time and
attorney-selection independent predicates (as one per-record filter), then
the attorney threshold, then the eight practice/matter/financial/client
independent predicates (as one per-record filter), then the client
threshold; so the attorney grouping is computed over the record set
narrowed only by the blocks preceding it, and the client grouping over the
set narrowed by everything else. -/
theorem claim_C1_amended (f : Filters) (df : List Record) :
    filter_data f df =
      minClientStage f ((minHoursStage f (df.filter (earlyPred f))).filter (latePred f)) := by
  have h1 : earlyIndepChain f df = df.filter (earlyPred f) := earlyIndepChain_eq_filter f df
  have h2 : lateIndepChain f (minHoursStage f (df.filter (earlyPred f))) =
      (minHoursStage f (df.filter (earlyPred f))).filter (latePred f) :=
    lateIndepChain_eq_filter f _
  show minClientStage f (lateIndepChain f (minHoursStage f (earlyIndepChain f df))) = _
  rw [h1, h2]

/-- claim C2: the group metric columns are computed with no
zero-denominator guard; a client (or attorney) group whose summed hours
are all zero gets utilization, average and efficiency rates of NaN
(pandas 0/0), not 0 as the specification requires. -/
theorem claim_C2_zero_denominator :
    (create_client_metrics_row [zeroRec] "c").utilization_rate = PVal.nan ∧
    (create_client_metrics_row [zeroRec] "c").average_rate = PVal.nan ∧
    (create_client_metrics_row [zeroRec] "c").efficiency_rate = PVal.nan ∧
    (attorney_metrics_row [zeroRec] "Z").utilization_rate = PVal.nan ∧
    PVal.nan ≠ PVal.num 0 := by
  refine ⟨by with_unfolding_all rfl, by with_unfolding_all rfl, by with_unfolding_all rfl,
    by with_unfolding_all rfl, ?_⟩
  intro h
  exact PVal.noConfusion h

/-- claim C3, counterexample: enrichment uses `fillna`, which replaces only
missing (NaN) cells; a practice area that is present but equal to the empty
string is kept as the empty string, not replaced by "Unspecified". -/
theorem claim_C3_counterexample :
    rawEmptyPA.practice_area = some "" ∧
    (load_and_process_row rawEmptyPA).practice_area = "" ∧
    (load_and_process_row rawEmptyPA).practice_area ≠ "Unspecified" := by
  have h1 : (load_and_process_row rawEmptyPA).practice_area = "" := rfl
  refine ⟨rfl, h1, ?_⟩
  rw [h1]
  decide

/-- claim C3, amended: enrichment replaces practice area and matter
location by "Unspecified" and matter description by "" exactly when the
raw cell is absent (null); a present value — including the empty string —
is kept unchanged. -/
theorem claim_C3_amended (raw : RawRecord) :
    (load_and_process_row raw).practice_area = raw.practice_area.getD "Unspecified" ∧
    (load_and_process_row raw).matter_location = raw.matter_location.getD "Unspecified" ∧
    (load_and_process_row raw).matter_description = raw.matter_description.getD "" := by
  refine ⟨?_, ?_, ?_⟩
  · show fillnaStr raw.practice_area "Unspecified" = _
    cases raw.practice_area <;> rfl
  · show fillnaStr raw.matter_location "Unspecified" = _
    cases raw.matter_location <;> rfl
  · show fillnaStr raw.matter_description "" = _
    cases raw.matter_description <;> rfl

/-- claim C4: for nonnegative billable and non-billable hours, enrichment
yields utilization_rate = billable / (billable + non_billable) * 100 when
the total is positive and 0 when the total is zero — always an ordinary
number, never NaN or an infinity. -/
theorem claim_C4_utilization_guard (raw : RawRecord) (h1 : 0 ≤ raw.billable_hours)
    (h2 : 0 ≤ raw.non_billable_hours) :
    (load_and_process_row raw).utilization_rate =
      PVal.num (if 0 < raw.billable_hours + raw.non_billable_hours
        then raw.billable_hours / (raw.billable_hours + raw.non_billable_hours) * 100
        else 0) := by
  show pfillna0 (pmul100 (pdivQ raw.billable_hours
    (raw.billable_hours + raw.non_billable_hours))) = _
  by_cases ht : raw.billable_hours + raw.non_billable_hours = 0
  · have hb : raw.billable_hours = 0 := by linarith
    rw [ht, hb]
    simp [pdivQ, pmul100, pfillna0]
  · have htpos : 0 < raw.billable_hours + raw.non_billable_hours :=
      lt_of_le_of_ne (add_nonneg h1 h2) (Ne.symm ht)
    rw [if_pos htpos]
    simp [pdivQ, pmul100, pfillna0, ht]

/-- claim C4, witness: the guard theorem instantiated at a concrete raw
record with 3 billable and 1 non-billable hours, giving 75. -/
theorem claim_C4_witness :
    0 ≤ rawBase.billable_hours ∧ 0 ≤ rawBase.non_billable_hours ∧
      (load_and_process_row rawBase).utilization_rate = PVal.num 75 := by
  have h1 : 0 ≤ rawBase.billable_hours := by
    show (0:ℚ) ≤ 3
    norm_num
  have h2 : 0 ≤ rawBase.non_billable_hours := by
    show (0:ℚ) ≤ 1
    norm_num
  refine ⟨h1, h2, ?_⟩
  rw [claim_C4_utilization_guard rawBase h1 h2]
  with_unfolding_all rfl

/-- claim C5, counterexample: with an active attorney threshold the filter
is not idempotent — on the two-record example, one pass keeps X's L record
(X has 12 hours at grouping time), but a second pass regroups over the
single surviving record (6 hours < 10) and drops it. -/
theorem claim_C5_counterexample :
    filter_data fPair (filter_data fPair pairRecs) ≠ filter_data fPair pairRecs := by
  have h1 : filter_data fPair (filter_data fPair pairRecs) = [] := by with_unfolding_all rfl
  have h2 : filter_data fPair pairRecs = [recX1] := by with_unfolding_all rfl
  intro h
  rw [h1, h2] at h
  exact List.noConfusion h

/-- claim C5, amended: applying the complete filter evaluation twice yields
the same record set as applying it once for every specification whose
attorney minimum-hours threshold is inactive (including specifications with
an active client threshold); an active attorney threshold can break
idempotence. -/
theorem claim_C5_amended (f : Filters) (df : List Record) (h : ¬ 0 < f.min_hours) :
    filter_data f (filter_data f df) = filter_data f df :=
  filter_data_idem_of_minHours_inactive f df h

/-- claim C5, witness: idempotence at a concrete specification with an
active client threshold (5 hours) and inactive attorney threshold. -/
theorem claim_C5_witness :
    ¬ 0 < fClient.min_hours ∧
      filter_data fClient (filter_data fClient pairRecs) = filter_data fClient pairRecs := by
  have hni : ¬ 0 < fClient.min_hours := by
    show ¬ (0:ℚ) < 0
    norm_num
  exact ⟨hni, claim_C5_amended fClient pairRecs hni⟩

/-- claim C6: the filtered result is always a sublist (hence subset) of the
input, and a specification with one more active constraint than another
yields a sublist of the looser specification's result, provided all
billable hours are nonnegative (the data model's schema invariant). -/
theorem claim_C6_monotone_narrowing (x : Facet) (f : Filters) (df : List Record)
    (hn : ∀ r ∈ df, 0 ≤ r.billable_hours) :
    filter_data f df <+ df ∧ filter_data f df <+ filter_data (setInactive x f) df :=
  ⟨filter_data_sublist f df, filter_data_narrowing x f df hn⟩

/-- claim C6, witness: narrowing at the concrete two-record example, adding
the practice-area constraint to its threshold-only weakening. -/
theorem claim_C6_witness :
    (∀ r ∈ pairRecs, 0 ≤ r.billable_hours) ∧
      (filter_data fPair pairRecs <+ pairRecs ∧
        filter_data fPair pairRecs <+ filter_data (setInactive Facet.practiceAreas fPair)
          pairRecs) := by
  have hn : ∀ r ∈ pairRecs, 0 ≤ r.billable_hours := by
    intro r hr
    rcases List.mem_cons.mp hr with h | h2
    · rw [h]
      show (0:ℚ) ≤ 6
      norm_num
    · rcases List.mem_cons.mp h2 with h | h
      · rw [h]
        show (0:ℚ) ≤ 6
        norm_num
      · exact absurd h (List.not_mem_nil r)
  exact ⟨hn, claim_C6_monotone_narrowing Facet.practiceAreas fPair pairRecs hn⟩

/-- claim C7: any two independent (non-threshold) facet blocks commute:
filtering by one and then the other gives the same record list in either
order. -/
theorem claim_C7_commute (x y : Facet) (f : Filters) (l : List Record)
    (hx1 : x ≠ Facet.minHours) (hx2 : x ≠ Facet.minClientHours)
    (hy1 : y ≠ Facet.minHours) (hy2 : y ≠ Facet.minClientHours) :
    facetStage x f (facetStage y f l) = facetStage y f (facetStage x f l) := by
  rw [facetStage_eq_filter y hy1 hy2 f l, facetStage_eq_filter x hx1 hx2 f l,
    facetStage_eq_filter x hx1 hx2 f (l.filter (facetPred y f)),
    facetStage_eq_filter y hy1 hy2 f (l.filter (facetPred x f))]
  exact filter_comm_of (facetPred y f) (facetPred x f) l

/-- claim C7, witness: commutation of the practice-areas and locations
blocks on the concrete two-record example. -/
theorem claim_C7_witness :
    (Facet.practiceAreas ≠ Facet.minHours ∧ Facet.practiceAreas ≠ Facet.minClientHours ∧
      Facet.locations ≠ Facet.minHours ∧ Facet.locations ≠ Facet.minClientHours) ∧
    facetStage Facet.practiceAreas fPair (facetStage Facet.locations fPair pairRecs) =
      facetStage Facet.locations fPair (facetStage Facet.practiceAreas fPair pairRecs) :=
  ⟨⟨by decide, by decide, by decide, by decide⟩,
    claim_C7_commute Facet.practiceAreas Facet.locations fPair pairRecs
      (by decide) (by decide) (by decide) (by decide)⟩

/-- claim C8: hierarchical consistency — for any fixed practice area, the
billable-hours sums of all (client, practice area) two-level groups with
that area add up to the area's billable-hours sum, which is exactly the
value carried by that area's row of the one-level practice-area table. -/
theorem claim_C8_hierarchy (l : List Record) (A : String) :
    (((create_client_practice_area_chart l).filter (fun g => decide (g.1.2 = A))).map
      (fun g => g.2)).sum =
      sumBy (fun r => r.practice_area) (fun r => r.billable_hours) l A ∧
    (A ∈ l.map (fun r => r.practice_area) →
      (A, sumBy (fun r => r.practice_area) (fun r => r.billable_hours) l A,
          sumBy (fun r => r.practice_area) (fun r => r.billable_hours_amount) l A) ∈
        create_practice_area_analysis l) := by
  constructor
  · exact client_area_sum_eq l A
  · intro hA
    unfold create_practice_area_analysis
    exact List.mem_map_of_mem _ (List.mem_dedup.mpr hA)

/-- claim C8, witness: hierarchical consistency at the concrete scenario
collection for the Litigation area. -/
theorem claim_C8_witness :
    (((create_client_practice_area_chart scenarioRecs).filter
        (fun g => decide (g.1.2 = "Litigation"))).map (fun g => g.2)).sum =
      sumBy (fun r => r.practice_area) (fun r => r.billable_hours) scenarioRecs "Litigation" ∧
    ("Litigation",
        sumBy (fun r => r.practice_area) (fun r => r.billable_hours) scenarioRecs "Litigation",
        sumBy (fun r => r.practice_area) (fun r => r.billable_hours_amount) scenarioRecs
          "Litigation") ∈ create_practice_area_analysis scenarioRecs :=
  ⟨(claim_C8_hierarchy scenarioRecs "Litigation").1,
    (claim_C8_hierarchy scenarioRecs "Litigation").2
      (by simp [scenarioRecs, recA1, recA2, recB, mkRec])⟩

/-- claim C9: the concrete three-record scenario — per-attorney aggregation
yields A: billable 8, tracked 8, utilization 100, amount 1600, average rate
200; B: billable 10, tracked 15, utilization 66.67 (rounded to two
decimals), amount 2500, average rate 250; and filtering with a minimum
attorney-hours threshold of 9 retains exactly B's record. -/
theorem claim_C9_scenario :
    (attorney_metrics_row scenarioRecs "A").billable_hours = 8 ∧
    (attorney_metrics_row scenarioRecs "A").tracked_hours = 8 ∧
    (attorney_metrics_row scenarioRecs "A").utilization_rate = PVal.num 100 ∧
    (attorney_metrics_row scenarioRecs "A").billable_hours_amount = 1600 ∧
    (attorney_metrics_row scenarioRecs "A").average_rate = PVal.num 200 ∧
    (attorney_metrics_row scenarioRecs "B").billable_hours = 10 ∧
    (attorney_metrics_row scenarioRecs "B").tracked_hours = 15 ∧
    (attorney_metrics_row scenarioRecs "B").utilization_rate = PVal.num (6667 / 100) ∧
    (attorney_metrics_row scenarioRecs "B").billable_hours_amount = 2500 ∧
    (attorney_metrics_row scenarioRecs "B").average_rate = PVal.num 250 ∧
    filter_data { noFilters with min_hours := 9 } scenarioRecs = [recB] := by
  refine ⟨?_, ?_, ?_, ?_, ?_, ?_, ?_, ?_, ?_, ?_, ?_⟩ <;> with_unfolding_all rfl

/-- claim C10: the filter evaluation returns an order-preserving,
duplication-free subsequence (sublist) of its input; the embedding is a
pure function, and the source works on a copy, so the input collection is
never mutated. -/
theorem claim_C10_subsequence (f : Filters) (df : List Record) : filter_data f df <+ df :=
  filter_data_sublist f df
